import Mathlib

/-!
Shallow embedding of the authentication and user-settings layer of the
ai-dev-template-backend-python repository (a FastAPI backend-for-frontend
over the Supabase auth API).

Each definition mirrors one function of the source:

* `decode_jwt`, `verify_jwt`, `jwtBearerCall` (JWTBearer.__call__),
  `get_current_user`, `conditional_auth` — src/src/utils/auth.py
* `parseUserSettingsBase`, `model_dump`, `update_user_settings`,
  `putSettingsEndpoint` — src/src/models/__init__.py,
  src/src/repositories/user_settings.py, src/src/api/v1/users.py
* `AuthService.sign_up` … `AuthService.verify_token` —
  src/src/services/auth_service.py
* `signInHandler`, `signOutHandler`, `verifyTokenHandler`,
  `SECURE_COOKIES` — src/src/api/v1/auth.py
* `validate_password` — src/src/models/auth.py

External collaborators (python-jose, FastAPI's HTTPBearer dependency, the
Supabase HTTP API) are modelled by their documented contracts, exactly as
the spec treats them: a JOSE token string is abstracted by the single HMAC
key it verifies under together with the payload it carries, and upstream
HTTP responses are abstracted by the response classes the source branches
on.  JSON null values and non-ASCII character classes are outside the
scope of the embedding.
-/

/-- The decoded JWT payload, as an open mapping: the claims the source
reads by name (`sub`, `email`, `exp`) plus the remaining entries.  A
missing field models a dict without that key. -/
structure Claims where
  sub : Option String := none
  email : Option String := none
  exp : Option Nat := none
  extra : List (String × String) := []
deriving DecidableEq, Repr

/-- Python dict truthiness for a claim payload: a dict is falsy iff
empty.  Used by `verify_jwt`, which returns `bool(payload)`. -/
def Claims.truthy (c : Claims) : Bool :=
  c.sub.isSome || c.email.isSome || c.exp.isSome || !c.extra.isEmpty

/-- Failure classes of python-jose's `jwt.decode` (all subclasses of
`JWTError`): token fails base64/JSON parsing, HMAC signature does not
verify, or the `exp` claim is in the past. -/
inductive JoseError where
  | malformedToken
  | badSignature
  | expiredSignature
deriving DecidableEq, Repr

/-- Abstraction of the JOSE layer: each well-formed token string is
determined by the single HMAC key its signature verifies under and the
payload it carries (`parse t = some (k, c)`); `parse t = none` models a
malformed token.  This is the standard security abstraction of an
HS256-signed JWS. -/
structure JoseModel where
  parse : String → Option (String × Claims)

/-- python-jose `jwt.decode(token, key, algorithms=[HS256])` with
`verify_aud` disabled (the only option the source changes): parse, check
the signature against the supplied key, then reject an `exp` claim that
lies strictly in the past (jose raises when `exp < now`, zero leeway).
Claims are returned verbatim; jose imposes no required-claims set. -/
def joseDecode (J : JoseModel) (secret : String) (now : Nat) (tok : String) :
    Except JoseError Claims :=
  match J.parse tok with
  | none => .error .malformedToken
  | some (k, c) =>
    if k = secret then
      match c.exp with
      | some e => if e < now then .error .expiredSignature else .ok c
      | none => .ok c
    else .error .badSignature

/-- src/src/utils/auth.py `decode_jwt`: calls `jwt.decode` with the
configured shared secret and returns the claims; the `except JWTError`
clause maps every jose failure to `None`, so the function never raises. -/
def decode_jwt (J : JoseModel) (secret : String) (now : Nat) (tok : String) :
    Option Claims :=
  match joseDecode J secret now tok with
  | .ok c => some c
  | .error _ => none

/-- src/src/utils/auth.py `JWTBearer.verify_jwt`: decodes and returns
`bool(payload)` (a present but empty claim dict is falsy). -/
def verify_jwt (J : JoseModel) (secret : String) (now : Nat) (tok : String) : Bool :=
  match decode_jwt J secret now tok with
  | some payload => payload.truthy
  | none => false

/-- The parsed `Authorization` header as FastAPI's
`get_authorization_scheme_param` produces it: the text before the first
space and the rest (a raw header without a space yields empty
credentials). -/
structure AuthHeader where
  scheme : String
  credentials : String
deriving DecidableEq, Repr

/-- ASCII lowercasing of one character (Python str.lower on the ASCII
range). -/
def lowerChar (c : Char) : Char :=
  if c.isUpper then Char.ofNat (c.toNat + 32) else c

/-- Python `s.lower()` over ASCII strings. -/
def strToLower (s : String) : String :=
  String.mk (s.data.map lowerChar)

/-- FastAPI's `HTTPBearer.__call__` with `auto_error=True`, modelled from
its source contract: a missing or blank header raises 403
"Not authenticated"; a scheme that is not case-insensitively "bearer"
raises 403 "Invalid authentication credentials"; otherwise the
credentials are returned. -/
def httpBearer (auth : Option AuthHeader) : Except (Nat × String) AuthHeader :=
  match auth with
  | none => .error (403, "Not authenticated")
  | some h =>
    if h.scheme = "" || h.credentials = "" then .error (403, "Not authenticated")
    else if strToLower h.scheme ≠ "bearer" then
      .error (403, "Invalid authentication credentials")
    else .ok h

/-- src/src/utils/auth.py `JWTBearer.__call__`: delegates to HTTPBearer,
then rejects a scheme other than the exact string "Bearer" with 403, and
rejects a token failing `verify_jwt` with 403; on success returns the raw
token.  (With `auto_error=True` the falsy-credentials branch of the
source, 403 "Invalid authorization code.", is unreachable: HTTPBearer
raises instead of returning None.) -/
def jwtBearerCall (J : JoseModel) (secret : String) (now : Nat)
    (auth : Option AuthHeader) : Except (Nat × String) String :=
  match httpBearer auth with
  | .error e => .error e
  | .ok h =>
    if h.scheme ≠ "Bearer" then .error (403, "Invalid authentication scheme.")
    else if verify_jwt J secret now h.credentials then .ok h.credentials
    else .error (403, "Invalid token or expired token.")

/-- The upstream Supabase surface touched by the settings-provisioning
side effect: the `check_user_exists` RPC and the `ensure_user_settings`
RPC.  An `Except.error` models a raised exception. -/
structure Upstream where
  checkUserExists : String → Except String Bool
  ensureUserSettings : String → Except String Unit

/-- What happened inside the provisioning block of `get_current_user`:
every branch is logged and swallowed, none propagates. -/
inductive ProvisionOutcome where
  | checkFailed
  | userMissing
  | ensureFailed
  | ensured
deriving DecidableEq, Repr

/-- The settings-provisioning side-effect block of `get_current_user`
(src/src/utils/auth.py lines 84-114): check the user exists, then ensure
the settings row; every failure is logged and swallowed. -/
def provisionUserSettings (up : Upstream) (uid : String) : ProvisionOutcome :=
  match up.checkUserExists uid with
  | .error _ => .checkFailed
  | .ok false => .userMissing
  | .ok true =>
    match up.ensureUserSettings uid with
    | .error _ => .ensureFailed
    | .ok _ => .ensured

/-- src/src/utils/auth.py `get_current_user`: decode the token (401 if it
no longer decodes), run the provisioning side effect when the payload
carries a truthy `sub`, and return the payload.  The second component
records whether the provisioning block was entered; its outcome never
changes the returned payload. -/
def get_current_user (J : JoseModel) (secret : String) (now : Nat)
    (up : Upstream) (token : String) : Except (Nat × String) Claims × Bool :=
  match decode_jwt J secret now token with
  | none => (.error (401, "Invalid token"), false)
  | some payload =>
    match payload.sub with
    | none => (.ok payload, false)
    | some uid =>
      if uid = "" then (.ok payload, false)
      else
        let _outcome := provisionUserSettings up uid
        (.ok payload, true)

/-- An inbound HTTP request as the auth layer sees it: the method and the
parsed Authorization header (if any). -/
structure Request where
  method : String
  auth : Option AuthHeader
deriving DecidableEq, Repr

/-- Result of the conditional-authentication gate: bypassed (None is
returned: no principal, no error), authenticated with a principal, or
rejected with an HTTP status and detail. -/
inductive ConditionalAuthResult where
  | bypassed
  | authenticated (principal : Claims)
  | rejected (status : Nat) (detail : String)
deriving DecidableEq, Repr

/-- src/src/utils/auth.py `conditional_auth`: OPTIONS requests return
None immediately; every other request runs JWTBearer and then
`get_current_user`.  The Bool records whether the settings-provisioning
block ran. -/
def conditional_auth (J : JoseModel) (secret : String) (now : Nat)
    (up : Upstream) (req : Request) : ConditionalAuthResult × Bool :=
  if req.method = "OPTIONS" then (.bypassed, false)
  else
    match jwtBearerCall J secret now req.auth with
    | .error (st, d) => (.rejected st d, false)
    | .ok tok =>
      match get_current_user J secret now up tok with
      | (.error (st, d), invoked) => (.rejected st d, invoked)
      | (.ok p, invoked) => (.authenticated p, invoked)

/-- The wire form of the PUT /users/me/settings body: each field is
either present with a string value or absent.  (Explicit JSON nulls are
outside the embedding's scope.) -/
structure SettingsPatch where
  theme : Option String := none
  language : Option String := none
  timezone : Option String := none
deriving DecidableEq, Repr

/-- src/src/models/__init__.py `UserSettingsBase` after pydantic
validation: every field holds a value, because the model declares the
defaults theme="light", language="en", timezone="UTC". -/
structure UserSettingsBase where
  theme : String
  language : String
  timezone : String
deriving DecidableEq, Repr

/-- Pydantic's parsing of a request body into `UserSettingsBase`: absent
fields take the declared defaults. -/
def parseUserSettingsBase (input : SettingsPatch) : UserSettingsBase :=
  { theme := input.theme.getD "light"
    language := input.language.getD "en"
    timezone := input.timezone.getD "UTC" }

/-- Pydantic `model_dump()` on `UserSettingsBase`: called without
`exclude_unset`, so it serializes every declared field. -/
def model_dump (s : UserSettingsBase) : List (String × String) :=
  [("theme", s.theme), ("language", s.language), ("timezone", s.timezone)]

/-- The stored user_settings row the update targets (id plus the three
preference columns; timestamps are managed by the database and carried
through unchanged, so they are omitted). -/
structure SettingsRow where
  id : String
  theme : String
  language : String
  timezone : String
deriving DecidableEq, Repr

/-- One column assignment of the supabase `table.update(payload)` call:
the payload is a mapping from column name to new value. -/
def applyColumn (row : SettingsRow) (kv : String × String) : SettingsRow :=
  if kv.1 = "theme" then { row with theme := kv.2 }
  else if kv.1 = "language" then { row with language := kv.2 }
  else if kv.1 = "timezone" then { row with timezone := kv.2 }
  else row

/-- src/src/repositories/user_settings.py
`UserSettingsRepository.update_user_settings`, on a user whose settings
row exists (the preceding `_ensure_user_settings` RPC is then a no-op):
`self.table.update(settings.model_dump()).eq("id", user_id).execute()` —
every column named in the dump is assigned. -/
def update_user_settings (stored : SettingsRow) (s : UserSettingsBase) : SettingsRow :=
  (model_dump s).foldl applyColumn stored

/-- The PUT /users/me/settings flow for an authenticated user with an
existing settings row (src/src/api/v1/users.py `update_user_settings`
endpoint): parse the body into `UserSettingsBase`, then call the
repository update. -/
def putSettingsEndpoint (stored : SettingsRow) (input : SettingsPatch) : SettingsRow :=
  update_user_settings stored (parseUserSettingsBase input)

/-- The upstream user object fields the source reads (the
`user_metadata` sub-object is flattened into the three fields the code
extracts from it). -/
structure UpstreamUser where
  id : Option String := none
  email : Option String := none
  firstName : Option String := none
  lastName : Option String := none
  avatarUrl : Option String := none
  createdAt : Option String := none
  updatedAt : Option String := none
  emailConfirmedAt : Option String := none
deriving DecidableEq, Repr

/-- The normalized user projection AuthService.sign_in builds. -/
structure UserPayload where
  id : Option String
  email : Option String
  firstName : Option String
  lastName : Option String
  avatarUrl : Option String
  createdAt : Option String
  updatedAt : Option String
  emailVerified : Bool
deriving DecidableEq, Repr

/-- src/src/services/auth_service.py sign_in success branch: the user
dict it assembles from the upstream auth payload. -/
def projectUser (u : UpstreamUser) : UserPayload :=
  { id := u.id
    email := u.email
    firstName := u.firstName
    lastName := u.lastName
    avatarUrl := u.avatarUrl
    createdAt := u.createdAt
    updatedAt := u.updatedAt
    emailVerified := u.emailConfirmedAt.isSome }

/-- The session dict sign_in and refresh_token assemble; each value is
read with `.get`, so it may be absent upstream. -/
structure SessionPayload where
  accessToken : Option String
  refreshToken : Option String
  expiresAt : Option Nat
deriving DecidableEq, Repr

/-- The value stored under the "user" key of an AuthResult: sign_in
stores its normalized projection, verify_token passes the upstream body
through verbatim. -/
inductive UserValue where
  | projection (p : UserPayload)
  | raw (u : UpstreamUser)
deriving DecidableEq, Repr

/-- The "details" sub-dict sign_up attaches to failures. -/
structure DetailsPayload where
  message : String
  errorId : Option String
deriving DecidableEq, Repr

/-- The normalized result dict every AuthService operation returns.  A
`none` field models a dict without that key. -/
structure AuthResult where
  success : Bool
  message : Option String := none
  user : Option UserValue := none
  session : Option SessionPayload := none
  error : Option String := none
  errorCode : Option String := none
  details : Option DetailsPayload := none
deriving DecidableEq, Repr

/-- The AuthResult invariant of the spec, as a decidable predicate:
`success=false` implies the error field is present, and `success=true`
implies the operation-specific payload (second argument) is present. -/
def authResultOk (r : AuthResult) (payloadPresent : Bool) : Bool :=
  (r.success || r.error.isSome) && (!r.success || payloadPresent)

/-- Python `a or b` on an optional string: a present, non-empty string
wins, otherwise the fallback. -/
def pyOr (a : Option String) (b : String) : String :=
  match a with
  | some s => if s = "" then b else s
  | none => b

/-- Does `needle` occur at the head of `hay`? -/
def listLeadsWith : List Char → List Char → Bool
  | [], _ => true
  | _ :: _, [] => false
  | a :: as, b :: bs => a = b && listLeadsWith as bs

/-- Does `needle` occur anywhere inside `hay`? -/
def listHasInfix (needle : List Char) : List Char → Bool
  | [] => needle.isEmpty
  | b :: bs => listLeadsWith needle (b :: bs) || listHasInfix needle bs

/-- Python `needle in hay` on strings. -/
def strContainsSub (hay needle : String) : Bool :=
  listHasInfix needle.data hay.data

namespace AuthService

/-- The fixed error-code-to-message table of
`AuthService._get_user_friendly_error_message`. -/
def errorMessages : List (String × String) :=
  [("user_already_registered", "This email is already registered. Please try signing in or use a different email."),
   ("invalid_email", "The email address format is invalid."),
   ("weak_password", "The password does not meet security requirements."),
   ("email_taken", "This email is already in use. Please try a different one."),
   ("network_error", "Network connection error. Please check your internet connection and try again."),
   ("unexpected_failure", "Our database encountered an error while creating your account. This might be due to a temporary issue or a configuration problem. Please try again later or contact support if the problem persists."),
   ("database_error", "Database error encountered. This could be due to a temporary issue or a configuration problem. Please try again later."),
   ("500", "The server encountered an internal error. Please try again later or contact support if the problem persists.")]

/-- src/src/services/auth_service.py
`AuthService._get_user_friendly_error_message`: a "database error"
substring of the lowered original message wins, then the code table,
then the original message passes through. -/
def getUserFriendlyErrorMessage (errorCode originalMessage : String) : String :=
  if strContainsSub (strToLower originalMessage) "database error" then
    "Database error encountered. This could be due to a temporary issue or a unique constraint violation. Please try again with a different email address."
  else (errorMessages.lookup errorCode).getD originalMessage

/-- The parsed upstream error body of a failed signup (the keys the
source reads with `.get`). -/
structure SignUpErrorBody where
  code : Option String := none
  message : Option String := none
  errorCode : Option String := none
  msg : Option String := none
  errorId : Option String := none
deriving DecidableEq, Repr

/-- The response classes `AuthService.sign_up` branches on: HTTP 200,
a non-200 with a parseable JSON error body, a non-200 whose body fails
JSON parsing (status kept for the message), httpx timeout, httpx request
error, or any other exception. -/
inductive SignUpOutcome where
  | ok
  | errJson (body : SignUpErrorBody)
  | errUnparseable (status : Nat)
  | timeout
  | netError
  | exn
deriving DecidableEq, Repr

/-- src/src/services/auth_service.py `AuthService.sign_up` (after the
request-model validation has already passed): one upstream POST, each
failure class mapped to a normalized result dict. -/
def sign_up (o : SignUpOutcome) : AuthResult :=
  match o with
  | .ok =>
    { success := true
      message := some "Account created successfully. Please check your email to confirm your account." }
  | .errJson b =>
    let errorCode := b.code.getD "unknown_code"
    let errorMsg := b.message.getD "Unknown error during signup"
    let detailedError := pyOr b.msg errorMsg
    let effectiveCode := pyOr b.errorCode errorCode
    { success := false
      error := some (getUserFriendlyErrorMessage effectiveCode detailedError)
      errorCode := some effectiveCode
      details := some { message := detailedError, errorId := b.errorId } }
  | .errUnparseable st =>
    { success := false
      error := some ("Unexpected response from authentication service (HTTP " ++ toString st ++ ")")
      errorCode := some "parse_error" }
  | .timeout =>
    { success := false
      error := some "The authentication service is taking too long to respond. Please try again later."
      errorCode := some "timeout" }
  | .netError =>
    { success := false
      error := some "Failed to connect to the authentication service. Please check your network connection and try again."
      errorCode := some "connection_error" }
  | .exn =>
    { success := false
      error := some "An unexpected error occurred. Please try again later."
      errorCode := some "unexpected_error" }

/-- The response classes `AuthService.sign_in` branches on: HTTP 200
with a parsed auth payload, a non-200 with a parseable body (optional
"message" key), or any exception (timeout, network error, JSON parse
failure — all caught by the same `except`). -/
inductive SignInOutcome where
  | ok (user : UpstreamUser) (accessToken : Option String)
       (refreshToken : Option String) (expiresAt : Option Nat)
  | errJson (message : Option String)
  | exn
deriving DecidableEq, Repr

/-- src/src/services/auth_service.py `AuthService.sign_in`. -/
def sign_in (o : SignInOutcome) : AuthResult :=
  match o with
  | .ok u at_ rt ea =>
    { success := true
      user := some (.projection (projectUser u))
      session := some { accessToken := at_, refreshToken := rt, expiresAt := ea } }
  | .errJson m =>
    { success := false, error := some (m.getD "Invalid email or password") }
  | .exn =>
    { success := false, error := some "Service unavailable. Please try again later." }

/-- The response classes `AuthService.sign_out` branches on: HTTP 204,
a non-204 with a body (optional "message" key), a non-204 with an empty
body, or any exception. -/
inductive SignOutOutcome where
  | noContent
  | errJson (message : Option String)
  | errEmptyBody
  | exn
deriving DecidableEq, Repr

/-- src/src/services/auth_service.py `AuthService.sign_out`. -/
def sign_out (o : SignOutOutcome) : AuthResult :=
  match o with
  | .noContent => { success := true, message := some "Successfully signed out" }
  | .errJson m => { success := false, error := some (m.getD "Error during sign out") }
  | .errEmptyBody => { success := false, error := some "Unknown error during sign out" }
  | .exn => { success := false, error := some "Service unavailable. Please try again later." }

/-- The response classes shared by the remaining simple proxies: HTTP
200, a non-200 with a parseable body, or any exception. -/
inductive SimpleOutcome where
  | ok
  | errJson (message : Option String)
  | exn
deriving DecidableEq, Repr

/-- src/src/services/auth_service.py `AuthService.reset_password_request`. -/
def reset_password_request (o : SimpleOutcome) : AuthResult :=
  match o with
  | .ok => { success := true, message := some "Password reset link sent to your email" }
  | .errJson m => { success := false, error := some (m.getD "Error sending password reset link") }
  | .exn => { success := false, error := some "Service unavailable. Please try again later." }

/-- src/src/services/auth_service.py `AuthService.change_password` (after
the request-model validation has already passed). -/
def change_password (o : SimpleOutcome) : AuthResult :=
  match o with
  | .ok => { success := true, message := some "Password changed successfully" }
  | .errJson m => { success := false, error := some (m.getD "Error changing password") }
  | .exn => { success := false, error := some "Service unavailable. Please try again later." }

/-- src/src/services/auth_service.py `AuthService.verify_email`. -/
def verify_email (o : SimpleOutcome) : AuthResult :=
  match o with
  | .ok => { success := true, message := some "Email verified successfully" }
  | .errJson m => { success := false, error := some (m.getD "Error verifying email") }
  | .exn => { success := false, error := some "Service unavailable. Please try again later." }

/-- The response classes `AuthService.refresh_token` branches on. -/
inductive RefreshOutcome where
  | ok (accessToken : Option String) (refreshToken : Option String) (expiresAt : Option Nat)
  | errJson (message : Option String)
  | exn
deriving DecidableEq, Repr

/-- src/src/services/auth_service.py `AuthService.refresh_token`. -/
def refresh_token (o : RefreshOutcome) : AuthResult :=
  match o with
  | .ok at_ rt ea =>
    { success := true
      session := some { accessToken := at_, refreshToken := rt, expiresAt := ea } }
  | .errJson m => { success := false, error := some (m.getD "Error refreshing token") }
  | .exn => { success := false, error := some "Service unavailable. Please try again later." }

/-- The response classes `AuthService.verify_token` branches on: HTTP
200 with the upstream user body, a non-200 with a parseable body, or any
exception. -/
inductive VerifyTokenOutcome where
  | ok (user : UpstreamUser)
  | errJson (message : Option String)
  | exn
deriving DecidableEq, Repr

/-- src/src/services/auth_service.py `AuthService.verify_token`: success
returns only `success` and the raw upstream `user` body; no branch ever
writes a "session" key. -/
def verify_token (o : VerifyTokenOutcome) : AuthResult :=
  match o with
  | .ok u => { success := true, user := some (.raw u) }
  | .errJson m => { success := false, error := some (m.getD "Invalid token") }
  | .exn => { success := false, error := some "Service unavailable. Please try again later." }

end AuthService

/-- src/src/api/v1/auth.py: access-token cookie lifetime, 15 minutes. -/
def ACCESS_TOKEN_EXPIRES_IN_SECONDS : Nat := 15 * 60

/-- src/src/api/v1/auth.py: refresh-token cookie lifetime, 7 days. -/
def REFRESH_TOKEN_EXPIRES_IN_SECONDS : Nat := 7 * 24 * 60 * 60

/-- src/src/api/v1/auth.py: `settings.ENVIRONMENT.lower() != "development"`. -/
def SECURE_COOKIES (environment : String) : Bool :=
  strToLower environment != "development"

/-- One `response.set_cookie(...)` call with the attributes the source
passes.  The value is the token read from the session dict (possibly
absent upstream). -/
structure SetCookie where
  key : String
  value : Option String
  httponly : Bool
  secure : Bool
  maxAge : Nat
  samesite : String
deriving DecidableEq, Repr

/-- One `response.delete_cookie(...)` call with the attributes the
source passes. -/
structure DeleteCookie where
  key : String
  secure : Bool
  httponly : Bool
  samesite : String
deriving DecidableEq, Repr

/-- The observable outcome of a route handler: status code, cookies set,
cookies deleted, and the body fields the claims mention. -/
structure ApiResponse where
  status : Nat
  cookies : List SetCookie := []
  deletedCookies : List DeleteCookie := []
  bodySuccess : Bool
  bodyMessage : Option String := none
  bodyError : Option String := none
deriving DecidableEq, Repr

/-- The access-token `set_cookie` call shared by sign-in, refresh and
verify-token. -/
def accessCookie (environment : String) (v : Option String) : SetCookie :=
  { key := "access_token", value := v, httponly := true
    secure := SECURE_COOKIES environment
    maxAge := ACCESS_TOKEN_EXPIRES_IN_SECONDS, samesite := "lax" }

/-- The refresh-token `set_cookie` call shared by sign-in, refresh and
verify-token. -/
def refreshCookie (environment : String) (v : Option String) : SetCookie :=
  { key := "refresh_token", value := v, httponly := true
    secure := SECURE_COOKIES environment
    maxAge := REFRESH_TOKEN_EXPIRES_IN_SECONDS, samesite := "lax" }

/-- src/src/api/v1/auth.py `sign_in` handler: on a successful service
result, read `result["session"]` and set the two cookies (a success
result without a session key would raise KeyError, surfaced by FastAPI
as a 500); otherwise return the result with status 401. -/
def signInHandler (environment : String) (r : AuthResult) : ApiResponse :=
  if r.success then
    match r.session with
    | some s =>
      { status := 200
        cookies := [accessCookie environment s.accessToken,
                    refreshCookie environment s.refreshToken]
        bodySuccess := true }
    | none => { status := 500, bodySuccess := false, bodyError := some "Internal Server Error" }
  else { status := 401, bodySuccess := false, bodyError := r.error }

/-- src/src/api/v1/auth.py `sign_out` handler: the upstream call runs
only when the refresh_token cookie is present and its result is
discarded; both cookies are deleted and `{success: true}` is returned
with the default 200 status in every case.  The first component records
whether `auth_service.sign_out` was invoked. -/
def signOutHandler (environment : String) (refreshTokenCookie : Option String)
    (o : AuthService.SignOutOutcome) : Bool × ApiResponse :=
  let resp : ApiResponse :=
    { status := 200
      deletedCookies :=
        [{ key := "access_token", secure := SECURE_COOKIES environment
           httponly := true, samesite := "lax" },
         { key := "refresh_token", secure := SECURE_COOKIES environment
           httponly := true, samesite := "lax" }]
      bodySuccess := true
      bodyMessage := some "Successfully signed out" }
  match refreshTokenCookie with
  | some _ =>
    let _discarded := AuthService.sign_out o
    (true, resp)
  | none => (false, resp)

/-- src/src/api/v1/auth.py `verify_token` handler: calls the service,
and only when the result is successful with a user AND carries a
"session" key does it set cookies. -/
def verifyTokenHandler (environment : String)
    (o : AuthService.VerifyTokenOutcome) : ApiResponse :=
  let result := AuthService.verify_token o
  if result.success && result.user.isSome then
    match result.session with
    | some s =>
      { status := 200
        cookies := [accessCookie environment s.accessToken,
                    refreshCookie environment s.refreshToken]
        bodySuccess := true }
    | none => { status := 200, bodySuccess := true }
  else
    { status := 401, bodySuccess := false
      bodyError := some (result.error.getD "Invalid token") }

/-- src/src/models/auth.py: the fixed punctuation set of the password
validator. -/
def specialCharacters : String := "!@#$%^&*()-_=+[]\x7b\x7d|;:,.<>?/~"

/-- src/src/models/auth.py `SignUpRequest.validate_password`: the five
complexity rules, checked in order, each raising a ValueError with its
message.  (Character classes are modelled over ASCII.) -/
def validate_password (v : String) : Except String String :=
  if v.length < 8 then
    .error "Password must be at least 8 characters long"
  else if !(v.data.any Char.isUpper) then
    .error "Password must contain at least one uppercase letter"
  else if !(v.data.any Char.isLower) then
    .error "Password must contain at least one lowercase letter"
  else if !(v.data.any Char.isDigit) then
    .error "Password must contain at least one number"
  else if !(v.data.any (fun c => specialCharacters.contains c)) then
    .error "Password must contain at least one special character"
  else .ok v

/-- Does the password pass the `SignUpRequest` validator? -/
def passwordValid (v : String) : Bool :=
  (validate_password v).isOk

/-- The POST /auth/sign-up request flow: pydantic validates the password
while parsing the request body, BEFORE the handler and its upstream call
run.  The first component records whether the upstream network call was
made: a validation failure short-circuits to a 422 with the rule's
message and no network call; otherwise `AuthService.sign_up` performs
its single upstream POST. -/
def signUpRequestFlow (password : String) (o : AuthService.SignUpOutcome) :
    Bool × Except String AuthResult :=
  match validate_password password with
  | .error e => (false, .error e)
  | .ok _ => (true, .ok (AuthService.sign_up o))

/-- A concrete jose backend for witnesses: one well-formed token
"tok-wrong" verifying under key "other-secret" with a one-second expiry. -/
def joseWitnessModel : JoseModel :=
  ⟨fun t => if t = "tok-wrong" then some ("other-secret", { exp := some 1 }) else none⟩

/-- A concrete jose backend under which "tok-empty" is correctly signed
with "shared-secret" but carries an empty payload. -/
def joseEmptyPayloadModel : JoseModel :=
  ⟨fun t => if t = "tok-empty" then some ("shared-secret", {}) else none⟩

/-- A concrete jose backend under which "tok-sub" is correctly signed
with "shared-secret" and carries a `sub` claim. -/
def joseSubModel : JoseModel :=
  ⟨fun t => if t = "tok-sub" then some ("shared-secret", { sub := some "user-1" }) else none⟩

/-- A trivial upstream for witnesses: the user exists and provisioning
succeeds. -/
def upstreamOk : Upstream :=
  ⟨fun _ => .ok true, fun _ => .ok ()⟩

/-- C1: the claim's partial-update law fails on the code at a concrete
input.  A stored record with language "fr" and timezone "Europe/Paris",
updated with the partial body containing only theme "dark", comes back
with language "en" and timezone "UTC": the fields not present in the
partial input are overwritten with the pydantic defaults, not left
untouched. -/
theorem update_settings_partial_law_counterexample :
  (putSettingsEndpoint
      { id := "user-1", theme := "light", language := "fr", timezone := "Europe/Paris" }
      { theme := some "dark" }).language = "en"
  ∧ (putSettingsEndpoint
      { id := "user-1", theme := "light", language := "fr", timezone := "Europe/Paris" }
      { theme := some "dark" }).timezone = "UTC"
  ∧ ("fr" : String) ≠ "en" ∧ ("Europe/Paris" : String) ≠ "UTC" :=
  ⟨rfl, rfl, by decide, by decide⟩

/-- C1 (amended): the settings update overwrites every preference field.
The PUT body is parsed into `UserSettingsBase`, whose absent fields take
the defaults "light"/"en"/"UTC", and `update_user_settings` applies
`model_dump()`, which serializes all three fields — so the stored record
ends up with exactly the parsed values, and a field not present in the
partial input is reset to its default rather than left at its prior
value. -/
theorem update_settings_overwrites_every_field (stored : SettingsRow)
    (input : SettingsPatch) :
  putSettingsEndpoint stored input =
    { id := stored.id
      theme := input.theme.getD "light"
      language := input.language.getD "en"
      timezone := input.timezone.getD "UTC" } := by
  cases stored
  cases input
  rfl

lemma sign_up_result_ok (o : AuthService.SignUpOutcome) :
    authResultOk (AuthService.sign_up o) (AuthService.sign_up o).message.isSome = true := by
  cases o <;> rfl

lemma sign_in_result_ok (o : AuthService.SignInOutcome) :
    authResultOk (AuthService.sign_in o)
      ((AuthService.sign_in o).user.isSome && (AuthService.sign_in o).session.isSome) = true := by
  cases o <;> rfl

lemma sign_out_result_ok (o : AuthService.SignOutOutcome) :
    authResultOk (AuthService.sign_out o) (AuthService.sign_out o).message.isSome = true := by
  cases o <;> rfl

lemma reset_password_result_ok (o : AuthService.SimpleOutcome) :
    authResultOk (AuthService.reset_password_request o)
      (AuthService.reset_password_request o).message.isSome = true := by
  cases o <;> rfl

lemma change_password_result_ok (o : AuthService.SimpleOutcome) :
    authResultOk (AuthService.change_password o)
      (AuthService.change_password o).message.isSome = true := by
  cases o <;> rfl

lemma verify_email_result_ok (o : AuthService.SimpleOutcome) :
    authResultOk (AuthService.verify_email o)
      (AuthService.verify_email o).message.isSome = true := by
  cases o <;> rfl

lemma refresh_token_result_ok (o : AuthService.RefreshOutcome) :
    authResultOk (AuthService.refresh_token o)
      (AuthService.refresh_token o).session.isSome = true := by
  cases o <;> rfl

lemma verify_token_result_ok (o : AuthService.VerifyTokenOutcome) :
    authResultOk (AuthService.verify_token o)
      (AuthService.verify_token o).user.isSome = true := by
  cases o <;> rfl

/-- C5: for every AuthService operation and every upstream response or
exception class, the returned result satisfies the AuthResult invariant:
success=false implies an error field, success=true implies the
operation-specific payload (message for sign_up/sign_out/password and
email operations, user and session for sign_in, session for
refresh_token, user for verify_token). -/
theorem auth_service_result_invariant :
  ∀ (o₁ : AuthService.SignUpOutcome) (o₂ : AuthService.SignInOutcome)
    (o₃ : AuthService.SignOutOutcome) (o₄ o₅ o₆ : AuthService.SimpleOutcome)
    (o₇ : AuthService.RefreshOutcome) (o₈ : AuthService.VerifyTokenOutcome),
    authResultOk (AuthService.sign_up o₁) (AuthService.sign_up o₁).message.isSome = true
    ∧ authResultOk (AuthService.sign_in o₂)
        ((AuthService.sign_in o₂).user.isSome && (AuthService.sign_in o₂).session.isSome) = true
    ∧ authResultOk (AuthService.sign_out o₃) (AuthService.sign_out o₃).message.isSome = true
    ∧ authResultOk (AuthService.reset_password_request o₄)
        (AuthService.reset_password_request o₄).message.isSome = true
    ∧ authResultOk (AuthService.change_password o₅)
        (AuthService.change_password o₅).message.isSome = true
    ∧ authResultOk (AuthService.verify_email o₆)
        (AuthService.verify_email o₆).message.isSome = true
    ∧ authResultOk (AuthService.refresh_token o₇)
        (AuthService.refresh_token o₇).session.isSome = true
    ∧ authResultOk (AuthService.verify_token o₈)
        (AuthService.verify_token o₈).user.isSome = true := by
  intro o₁ o₂ o₃ o₄ o₅ o₆ o₇ o₈
  exact ⟨sign_up_result_ok o₁, sign_in_result_ok o₂, sign_out_result_ok o₃,
         reset_password_result_ok o₄, change_password_result_ok o₅,
         verify_email_result_ok o₆, refresh_token_result_ok o₇,
         verify_token_result_ok o₈⟩

/-- C8: for every sign-out request, the upstream sign-out call runs iff
the refresh_token cookie is present, and in all cases the response has
status 200, reports success=true with the sign-out message, deletes both
the access_token and refresh_token cookies, and sets none. -/
theorem sign_out_clears_cookies_and_skips_upstream (environment : String)
    (refreshTokenCookie : Option String) (o : AuthService.SignOutOutcome) :
  (signOutHandler environment refreshTokenCookie o).1 = refreshTokenCookie.isSome
  ∧ (signOutHandler environment refreshTokenCookie o).2.status = 200
  ∧ (signOutHandler environment refreshTokenCookie o).2.bodySuccess = true
  ∧ (signOutHandler environment refreshTokenCookie o).2.bodyMessage
      = some "Successfully signed out"
  ∧ ((signOutHandler environment refreshTokenCookie o).2.deletedCookies.map
      (fun c => c.key)) = ["access_token", "refresh_token"]
  ∧ (signOutHandler environment refreshTokenCookie o).2.cookies = [] := by
  cases refreshTokenCookie <;> exact ⟨rfl, rfl, rfl, rfl, rfl, rfl⟩

/-- C10: for every input token and upstream outcome, the result of
AuthService.verify_token carries no session, so the cookie-setting
branch of the POST /auth/verify-token handler is unreachable and the
endpoint never sets cookies. -/
theorem verify_token_never_returns_session (environment : String)
    (o : AuthService.VerifyTokenOutcome) :
  (AuthService.verify_token o).session = none
  ∧ (verifyTokenHandler environment o).cookies = [] := by
  cases o <;> exact ⟨rfl, rfl⟩

/-- C2: a request whose method is OPTIONS is bypassed by
`conditional_auth` immediately: the result is the bypass value (no
principal, no error — in particular not a 401/403 rejection) and the
settings-provisioning block is never entered, regardless of whether an
Authorization header is present or valid. -/
theorem conditional_auth_options_bypass (J : JoseModel) (secret : String)
    (now : Nat) (up : Upstream) (req : Request)
    (h : req.method = "OPTIONS") :
  conditional_auth J secret now up req = (ConditionalAuthResult.bypassed, false) := by
  simp [conditional_auth, h]

theorem conditional_auth_options_bypass_witness :
  (Request.mk "OPTIONS" (some { scheme := "Bearer", credentials := "garbage" })).method
      = "OPTIONS"
  ∧ conditional_auth joseWitnessModel "shared-secret" 0 upstreamOk
      (Request.mk "OPTIONS" (some { scheme := "Bearer", credentials := "garbage" }))
      = (ConditionalAuthResult.bypassed, false) :=
  ⟨rfl, conditional_auth_options_bypass joseWitnessModel "shared-secret" 0 upstreamOk
      (Request.mk "OPTIONS" (some { scheme := "Bearer", credentials := "garbage" })) rfl⟩

/-- C3: `decode_jwt` returns None, rather than raising, on every failing
token: every jose failure is caught and mapped to None, and in
particular a malformed token, a token whose signature verifies under a
key different from the configured shared secret, and a token whose exp
claim is in the past all yield None. -/
theorem decode_jwt_failure_yields_none (J : JoseModel) (secret : String)
    (now : Nat) (tok : String) :
  (∀ e, joseDecode J secret now tok = Except.error e →
      decode_jwt J secret now tok = none)
  ∧ (J.parse tok = none → decode_jwt J secret now tok = none)
  ∧ (∀ k c, J.parse tok = some (k, c) → k ≠ secret →
      decode_jwt J secret now tok = none)
  ∧ (∀ k c e, J.parse tok = some (k, c) → c.exp = some e → e < now →
      decode_jwt J secret now tok = none) := by
  refine ⟨?_, ?_, ?_, ?_⟩
  · intro e h
    simp [decode_jwt, h]
  · intro h
    simp [decode_jwt, joseDecode, h]
  · intro k c hp hk
    simp [decode_jwt, joseDecode, hp, hk]
  · intro k c e hp he hlt
    by_cases hk : k = secret
    · subst hk
      simp [decode_jwt, joseDecode, hp, he, hlt]
    · simp [decode_jwt, joseDecode, hp, hk]

theorem decode_jwt_failure_yields_none_witness :
  ("other-secret" : String) ≠ "shared-secret"
  ∧ decode_jwt joseWitnessModel "shared-secret" 0 "tok-wrong" = none
  ∧ decode_jwt joseWitnessModel "other-secret" 1000 "tok-wrong" = none :=
  ⟨by decide,
   (decode_jwt_failure_yields_none joseWitnessModel "shared-secret" 0 "tok-wrong").2.2.1
     "other-secret" { exp := some 1 } rfl (by decide),
   (decode_jwt_failure_yields_none joseWitnessModel "other-secret" 1000 "tok-wrong").2.2.2
     "other-secret" { exp := some 1 } 1 rfl rfl (by decide)⟩

/-- C4: the claim fails on the code at a concrete input: a token
correctly signed with the shared secret, not expired, but carrying an
empty payload is accepted by `decode_jwt` — which imposes no
required-claims set — and the returned claim mapping does not contain
`sub`. -/
theorem decode_jwt_accepts_token_without_sub :
  decode_jwt joseEmptyPayloadModel "shared-secret" 0 "tok-empty" = some {}
  ∧ ({} : Claims).sub = none :=
  ⟨rfl, rfl⟩

/-- C4 (amended): an accepted token's claims are returned verbatim:
whenever `decode_jwt` returns a claim mapping, the token is correctly
signed with the shared secret and the mapping is exactly the token's
payload — so the result contains `sub` exactly when the token's payload
does (upstream-issued tokens always include it), and decode itself
guarantees no particular claim. -/
theorem decode_jwt_returns_token_payload (J : JoseModel) (secret : String)
    (now : Nat) (tok : String) (c : Claims)
    (h : decode_jwt J secret now tok = some c) :
  J.parse tok = some (secret, c) := by
  unfold decode_jwt at h
  cases hj : joseDecode J secret now tok with
  | error e => rw [hj] at h; simp at h
  | ok c' =>
    rw [hj] at h
    simp at h
    subst h
    unfold joseDecode at hj
    cases hp : J.parse tok with
    | none => rw [hp] at hj; simp at hj
    | some kc =>
      obtain ⟨k, cl⟩ := kc
      rw [hp] at hj
      dsimp only at hj
      by_cases hk : k = secret
      · subst hk
        rw [if_pos rfl] at hj
        cases he : cl.exp with
        | none => rw [he] at hj; simp at hj; rw [hj]
        | some e =>
          rw [he] at hj
          dsimp only at hj
          by_cases hlt : e < now
          · rw [if_pos hlt] at hj; simp at hj
          · rw [if_neg hlt] at hj; simp at hj; rw [hj]
      · rw [if_neg hk] at hj; simp at hj

theorem decode_jwt_returns_token_payload_witness :
  decode_jwt joseSubModel "shared-secret" 0 "tok-sub" = some { sub := some "user-1" }
  ∧ joseSubModel.parse "tok-sub" = some ("shared-secret", { sub := some "user-1" }) :=
  ⟨rfl,
   decode_jwt_returns_token_payload joseSubModel "shared-secret" 0 "tok-sub"
     { sub := some "user-1" } rfl⟩

/-- C6: the sign-up password is validated while the request body is
parsed, before any network call: the upstream call happens iff the
password passes the validator, the validator enforces exactly the five
rules of the source (length at least 8, an uppercase letter, a lowercase
letter, a digit, a character of the fixed punctuation set), and the
password "short" never reaches the network. -/
theorem sign_up_password_validated_before_network (password : String)
    (o : AuthService.SignUpOutcome) :
  (signUpRequestFlow password o).1 = passwordValid password
  ∧ passwordValid password =
      (decide (8 ≤ password.length) && password.data.any Char.isUpper
        && password.data.any Char.isLower && password.data.any Char.isDigit
        && password.data.any (fun c => specialCharacters.contains c))
  ∧ (signUpRequestFlow "short" o).1 = false := by
  refine ⟨?_, ?_, rfl⟩
  · unfold signUpRequestFlow passwordValid
    cases h : validate_password password <;> simp [h, Except.isOk, Except.toBool]
  · unfold passwordValid validate_password
    by_cases h₁ : password.length < 8
    · have h₁' : ¬ 8 ≤ password.length := Nat.not_le.mpr h₁
      simp [h₁, h₁', Except.isOk, Except.toBool]
    · have h₁' : 8 ≤ password.length := Nat.le_of_not_lt h₁
      cases h₂ : password.data.any Char.isUpper <;>
        cases h₃ : password.data.any Char.isLower <;>
          cases h₄ : password.data.any Char.isDigit <;>
            cases h₅ : password.data.any (fun c => specialCharacters.contains c) <;>
              simp [h₁, h₁', h₂, h₃, h₄, h₅, Except.isOk, Except.toBool]

/-- C7: every successful sign-in response sets exactly the two cookies
access_token (max-age 900 seconds) and refresh_token (max-age 604800
seconds), both httponly with samesite lax, and the secure flag is true
exactly when the deployment environment is not (case-insensitively)
"development". -/
theorem sign_in_success_sets_two_cookies (environment : String)
    (o : AuthService.SignInOutcome)
    (h : (AuthService.sign_in o).success = true) :
  ((signInHandler environment (AuthService.sign_in o)).cookies.map
      (fun c => (c.key, c.httponly, c.secure, c.maxAge, c.samesite)))
    = [("access_token", true, SECURE_COOKIES environment,
          ACCESS_TOKEN_EXPIRES_IN_SECONDS, "lax"),
       ("refresh_token", true, SECURE_COOKIES environment,
          REFRESH_TOKEN_EXPIRES_IN_SECONDS, "lax")]
  ∧ (signInHandler environment (AuthService.sign_in o)).cookies.length = 2
  ∧ ACCESS_TOKEN_EXPIRES_IN_SECONDS = 900
  ∧ REFRESH_TOKEN_EXPIRES_IN_SECONDS = 604800
  ∧ (SECURE_COOKIES environment = true ↔ strToLower environment ≠ "development") := by
  cases o with
  | ok u at_ rt ea =>
    refine ⟨rfl, rfl, rfl, rfl, ?_⟩
    simp [SECURE_COOKIES, bne_iff_ne]
  | errJson m => simp [AuthService.sign_in] at h
  | exn => simp [AuthService.sign_in] at h

theorem sign_in_success_sets_two_cookies_witness :
  (AuthService.sign_in
      (AuthService.SignInOutcome.ok {} (some "acc-1") (some "ref-1") (some 7))).success
    = true
  ∧ (signInHandler "production"
      (AuthService.sign_in
        (AuthService.SignInOutcome.ok {} (some "acc-1") (some "ref-1") (some 7)))).cookies.length
    = 2 :=
  ⟨rfl,
   (sign_in_success_sets_two_cookies "production"
      (AuthService.SignInOutcome.ok {} (some "acc-1") (some "ref-1") (some 7)) rfl).2.1⟩

lemma strToLower_bearer : strToLower "Bearer" = "bearer" := rfl

lemma httpBearer_error_detail (auth : Option AuthHeader) (e : Nat × String)
    (heq : httpBearer auth = Except.error e) :
    e = (403, "Not authenticated")
    ∨ e = (403, "Invalid authentication credentials") := by
  unfold httpBearer at heq
  cases auth with
  | none =>
    injection heq with h'
    exact Or.inl h'.symm
  | some hx =>
    dsimp only at heq
    split at heq
    · injection heq with h'
      exact Or.inl h'.symm
    · split at heq
      · injection heq with h'
        exact Or.inr h'.symm
      · simp at heq

lemma httpBearer_ok_implies (auth : Option AuthHeader) (h : AuthHeader)
    (heq : httpBearer auth = Except.ok h) : auth = some h := by
  unfold httpBearer at heq
  cases auth with
  | none => simp at heq
  | some hx =>
    dsimp only at heq
    split at heq
    · simp at heq
    · split at heq
      · simp at heq
      · injection heq with h'
        rw [h']

lemma jwtBearerCall_error_detail (J : JoseModel) (secret : String) (now : Nat)
    (auth : Option AuthHeader) (e : Nat × String)
    (heq : jwtBearerCall J secret now auth = Except.error e) :
    e = (403, "Not authenticated")
    ∨ e = (403, "Invalid authentication credentials")
    ∨ e = (403, "Invalid authentication scheme.")
    ∨ e = (403, "Invalid token or expired token.") := by
  unfold jwtBearerCall at heq
  cases hhb : httpBearer auth with
  | error eh =>
    rw [hhb] at heq
    dsimp only at heq
    injection heq with h'
    rcases httpBearer_error_detail auth eh hhb with h | h
    · exact Or.inl (h'.symm.trans h)
    · exact Or.inr (Or.inl (h'.symm.trans h))
  | ok hh =>
    rw [hhb] at heq
    dsimp only at heq
    split at heq
    · injection heq with h'
      exact Or.inr (Or.inr (Or.inl h'.symm))
    · split at heq
      · simp at heq
      · injection heq with h'
        exact Or.inr (Or.inr (Or.inr h'.symm))

lemma jwtBearerCall_ok_implies (J : JoseModel) (secret : String) (now : Nat)
    (auth : Option AuthHeader) (tok : String)
    (heq : jwtBearerCall J secret now auth = Except.ok tok) :
    ∃ h, auth = some h ∧ h.scheme = "Bearer" ∧ h.credentials = tok
      ∧ verify_jwt J secret now h.credentials = true := by
  unfold jwtBearerCall at heq
  cases hhb : httpBearer auth with
  | error eh =>
    rw [hhb] at heq
    dsimp only at heq
    simp at heq
  | ok hh =>
    rw [hhb] at heq
    dsimp only at heq
    split at heq
    · simp at heq
    · rename_i hns
      split at heq
      · injection heq with h'
        exact ⟨hh, httpBearer_ok_implies auth hh hhb, not_not.mp hns, h', by assumption⟩
      · simp at heq

/-- C9: every failure of the JWTBearer gate — Authorization header
absent or blank, scheme other than Bearer, or token failing
verification — rejects with status 403 (never 401) and one of the four
human-readable detail strings of the source naming the failure kind. -/
theorem jwt_bearer_rejects_with_403 (J : JoseModel) (secret : String)
    (now : Nat) (auth : Option AuthHeader) :
  (∀ e, jwtBearerCall J secret now auth = Except.error e →
      e.1 = 403 ∧ (e.2 = "Not authenticated"
        ∨ e.2 = "Invalid authentication credentials"
        ∨ e.2 = "Invalid authentication scheme."
        ∨ e.2 = "Invalid token or expired token."))
  ∧ (auth = none → (jwtBearerCall J secret now auth).isOk = false)
  ∧ (∀ h, auth = some h → h.scheme ≠ "Bearer" →
      (jwtBearerCall J secret now auth).isOk = false)
  ∧ (∀ h, auth = some h → verify_jwt J secret now h.credentials = false →
      (jwtBearerCall J secret now auth).isOk = false) := by
  refine ⟨?_, ?_, ?_, ?_⟩
  · intro e heq
    rcases jwtBearerCall_error_detail J secret now auth e heq with h | h | h | h
    · subst h; exact ⟨rfl, Or.inl rfl⟩
    · subst h; exact ⟨rfl, Or.inr (Or.inl rfl)⟩
    · subst h; exact ⟨rfl, Or.inr (Or.inr (Or.inl rfl))⟩
    · subst h; exact ⟨rfl, Or.inr (Or.inr (Or.inr rfl))⟩
  · intro ha
    subst ha
    rfl
  · intro h hh hne
    cases hres : jwtBearerCall J secret now auth with
    | error e => rfl
    | ok tok =>
      obtain ⟨h', hsome, hsch, hcred, hver⟩ :=
        jwtBearerCall_ok_implies J secret now auth tok hres
      rw [hh] at hsome
      injection hsome with h''
      subst h''
      exact absurd hsch hne
  · intro h hh hv
    cases hres : jwtBearerCall J secret now auth with
    | error e => rfl
    | ok tok =>
      obtain ⟨h', hsome, hsch, hcred, hver⟩ :=
        jwtBearerCall_ok_implies J secret now auth tok hres
      rw [hh] at hsome
      injection hsome with h''
      subst h''
      rw [hv] at hver
      simp at hver

theorem jwt_bearer_rejects_with_403_witness :
  ((none : Option AuthHeader) = none
    → (jwtBearerCall joseWitnessModel "shared-secret" 0 none).isOk = false)
  ∧ (jwtBearerCall joseWitnessModel "shared-secret" 0 none).isOk = false
  ∧ ((403, "Not authenticated") : Nat × String).1 = 403 :=
  ⟨(jwt_bearer_rejects_with_403 joseWitnessModel "shared-secret" 0 none).2.1,
   (jwt_bearer_rejects_with_403 joseWitnessModel "shared-secret" 0 none).2.1 rfl,
   ((jwt_bearer_rejects_with_403 joseWitnessModel "shared-secret" 0 none).1
      (403, "Not authenticated") rfl).1⟩
